import Mathlib

/-!
Verification development for the pepe preprocessor (src/pepe/__init__.py and
src/pepe/content_types.py).

The directive-processing engine is embedded shallowly: the per-line regex
matching phase of `preprocess` is abstracted by feeding the engine a list of
already-classified lines (`PLine`), mirroring the dispatch on
`match.group("op")` in the source; everything downstream of that dispatch
(the conditional-frame stack, define/undef/include/error handling, output
emission, the end-of-file checks and every error message) is transcribed from
the source.  Calls into the host language (CPython `eval`, `os.path`
helpers, `pathtools.path.absolute_path`) are modelled by small executable
fragments, each marked by a doc comment naming exactly what it models.
-/

namespace Pepe

/-- A Python value as stored in the `defines` dictionary: one of
null/None, boolean, integer, float (represented exactly as a rational for
the decimal literals this development touches) or string. -/
inductive Value where
  | vnone
  | vbool (b : Bool)
  | vint (i : Int)
  | vfloat (q : Rat)
  | vstr (s : String)
deriving DecidableEq

/-- The variable table (`defines`): an insertion-ordered association list
modelling the Python dict threaded through `preprocess`. -/
abbrev Defines := List (String × Value)

/-- Dictionary lookup, `defines[key]` returning `none` for a missing key. -/
def dlookup : Defines → String → Option Value
  | [], _ => none
  | (k, v) :: rest, key => if k = key then some v else dlookup rest key

/-- Dictionary update `defines[key] = val`: replaces the value in place when
the key exists, appends otherwise. -/
def dinsert : Defines → String → Value → Defines
  | [], key, val => [(key, val)]
  | (k, v) :: rest, key, val =>
      if k = key then (k, val) :: rest else (k, v) :: dinsert rest key val

/-- Dictionary deletion `del defines[key]` with the `KeyError` swallowed:
removes the entry when present, leaves the table unchanged otherwise. -/
def dremove : Defines → String → Defines
  | [], _ => []
  | (k, v) :: rest, key => if k = key then rest else (k, v) :: dremove rest key

/-- Python `str()` of a stored value, used when substituting defines into
emitted lines. -/
def pyStr : Value → String
  | .vnone => ("None")
  | .vbool true => ("True")
  | .vbool false => ("False")
  | .vint i => toString i
  | .vfloat q => toString q
  | .vstr s => s

/-!
String helpers.  The source manipulates Python strings with `strip`,
`startswith`, `split`, `lower`, `replace` and friends; the Lean core
functions of the same purpose are compiled by well-founded recursion and do
not evaluate inside the kernel, so this development defines structural
(char-list) versions and uses them throughout.  Each is a direct model of
the corresponding Python string method, restricted to the ASCII data the
claims exercise. -/

/-- Does the second list start with the first? -/
def listStarts : List Char → List Char → Bool
  | [], _ => true
  | _ :: _, [] => false
  | p :: ps, c :: cs => p == c && listStarts ps cs

/-- Python s.startswith(pre). -/
def pyStarts (s pre : String) : Bool := listStarts pre.data s.data

/-- Python s.endswith(suf). -/
def pyEnds (s suf : String) : Bool := listStarts suf.data.reverse s.data.reverse

/-- Python s.strip() with no argument: whitespace removed from both ends. -/
def pyStrip (s : String) : String :=
  String.mk (((s.data.dropWhile Char.isWhitespace).reverse.dropWhile
    Char.isWhitespace).reverse)

/-- The first `n` characters dropped (ASCII text, so Python s[n:]). -/
def pyDrop (s : String) (n : Nat) : String := String.mk (s.data.drop n)

/-- The last `n` characters dropped (Python s[:-n]). -/
def pyDropRight (s : String) (n : Nat) : String :=
  String.mk (s.data.take (s.data.length - n))

/-- Python s.lower() on ASCII text. -/
def pyLower (s : String) : String := String.mk (s.data.map Char.toLower)

/-- Fuelled splitting worker: at each position, a match of the (non-empty)
separator ends the current piece and skips the separator.  The fuel is the
input length, consumed one unit per examined character, so it never runs
out. -/
def splitGo (sep : List Char) : Nat → List Char → List Char → List (List Char)
  | _, [], acc => [acc.reverse]
  | 0, cs, acc => [acc.reverse ++ cs]
  | n + 1, c :: cs, acc =>
      if sep ≠ [] ∧ listStarts sep (c :: cs) then
        acc.reverse :: splitGo sep n (List.drop sep.length (c :: cs)) []
      else splitGo sep n cs (c :: acc)

/-- Python s.split(sep) for a non-empty separator. -/
def splitChars (sep cs : List Char) : List (List Char) :=
  splitGo sep cs.length cs []

/-- Python s.split(sep, 1) used as a two-element unpacking on a one-char
separator: the text before the first occurrence and all of the rest,
`none` (an unpacking ValueError) when the character does not occur. -/
def splitOnce (sep : Char) : List Char → Option (List Char × List Char)
  | [] => none
  | c :: cs =>
      if c == sep then some ([], cs)
      else (splitOnce sep cs).map (fun p => (c :: p.1, p.2))

/-- Fuelled replacement worker for Python s.replace(pat, rep):
non-overlapping occurrences, left to right. -/
def replaceGo (pat rep : List Char) : Nat → List Char → List Char
  | _, [] => []
  | 0, cs => cs
  | n + 1, c :: cs =>
      if pat ≠ [] ∧ listStarts pat (c :: cs) then
        rep ++ replaceGo pat rep n (List.drop pat.length (c :: cs))
      else c :: replaceGo pat rep n cs

/-- Python s.replace(pat, rep) for a non-empty pattern. -/
def pyReplace (s pat rep : String) : String :=
  String.mk (replaceGo pat.data rep.data s.data.length s.data)

/-- Python sep.join(pieces). -/
def joinWith (sep : String) : List String → String
  | [] => ("")
  | [x] => x
  | x :: xs => x ++ sep ++ joinWith sep xs

/-- Value of a single character as a digit in the given base, `none` when the
character is not a digit of that base. -/
def digitVal (base : Nat) (c : Char) : Option Nat :=
  let d : Option Nat :=
    if c.isDigit then some (c.toNat - 48)
    else if ('a') ≤ c ∧ c ≤ ('f') then some (c.toNat - 87)
    else if ('A') ≤ c ∧ c ≤ ('F') then some (c.toNat - 55)
    else none
  match d with
  | some v => if v < base then some v else none
  | none => none

/-- Reads a digit string in the given base, accumulator form. -/
def natOfDigitsAux (base : Nat) (acc : Nat) : List Char → Option Nat
  | [] => some acc
  | c :: rest =>
      match digitVal base c with
      | some d => natOfDigitsAux base (acc * base + d) rest
      | none => none

/-- Reads a digit string in the given base; `some 0` on the empty string, so
callers must check emptiness themselves (as the modelled callers do). -/
def natOfDigits (base : Nat) (cs : List Char) : Option Nat :=
  natOfDigitsAux base 0 cs

/-- Modelled foreign code: the fragment of CPython (2.x) expression literals
this development exercises, as evaluated by `eval` — `True`/`False`/`None`,
hexadecimal (`0x`-prefixed), octal (leading-zero) and decimal integer
literals, and single- or double-quoted strings without escapes.  Every other
string is `none`, standing for the `NameError`/`SyntaxError` that `eval`
raises on it (in particular the lowercase names `true` and `false` are not
Python literals and evaluate to `none` here, exactly as `eval` raises
`NameError` on them in an empty scope). -/
def pyLiteral (s : String) : Option Value :=
  let t := pyStrip s
  if t = ("True") then some (.vbool true)
  else if t = ("False") then some (.vbool false)
  else if t = ("None") then some Value.vnone
  else if pyStarts t ("0x") ∨ pyStarts t ("0X") then
    if (pyDrop t 2) = ("") then none
    else (natOfDigits 16 (pyDrop t 2).data).map (fun n => .vint (Int.ofNat n))
  else if pyStarts t ("0") then
    (natOfDigits 8 t.data).map (fun n => .vint (Int.ofNat n))
  else if t ≠ ("") ∧ t.data.all Char.isDigit then
    (natOfDigits 10 t.data).map (fun n => .vint (Int.ofNat n))
  else if 2 ≤ t.length ∧
      ((pyStarts t ("'") ∧ pyEnds t ("'")) ∨
       (pyStarts t ("\"") ∧ pyEnds t ("\""))) then
    some (.vstr (pyDropRight (pyDrop t 1) 1))
  else none

/-- Python truthiness of a stored value, as used by `if _evaluate(expr, ...)`. -/
def truthy : Value → Bool
  | .vnone => false
  | .vbool b => b
  | .vint i => decide (i ≠ 0)
  | .vfloat q => decide (q ≠ 0)
  | .vstr s => decide (s ≠ (""))

/-- Is the string a Python identifier (letter or underscore, then letters,
digits or underscores)? -/
def pyIdent (s : String) : Bool :=
  match s.data with
  | [] => false
  | c :: rest =>
      (c.isAlpha || c == ('_')) &&
      rest.all (fun d => d.isAlphanum || d == ('_'))

/-- Recognizes the argument of the exact call form defined('NAME'),
returning the quoted name. -/
def definedArg (t : String) : Option String :=
  if pyStarts t ("defined('") ∧ pyEnds t ("')") ∧ 11 ≤ t.length then
    some (pyDropRight (pyDrop t 9) 2)
  else none

/-- Modelled foreign code: the fragment of CPython `eval` that `_evaluate`
invokes with globals containing only `defined` and the variable table as
locals.  The fragment covers the expression forms this development
exercises: literals (`pyLiteral`), the calls defined('N') and
`not` defined('N'), and a bare identifier looked up in the variable table.
Errors are returned as the `str()` of the exception `eval` raises: a
`NameError` message for an unbound identifier, `"invalid syntax"` for
anything outside the fragment. -/
def pyEvalExpr (expression : String) (defines : Defines) : Except String Value :=
  let t := pyStrip expression
  match pyLiteral t with
  | some v => .ok v
  | none =>
    match definedArg t with
    | some name => .ok (.vbool ((dlookup defines name).isSome))
    | none =>
      if pyStarts t ("not ") then
        match definedArg (pyStrip (pyDrop t 4)) with
        | some name => .ok (.vbool (!(dlookup defines name).isSome))
        | none => .error ("invalid syntax")
      else if pyIdent t then
        match dlookup defines t with
        | some v => .ok v
        | none => .error (("name '") ++ t ++ ("' is not defined"))
      else .error ("invalid syntax")

/-- The error values the engine can abort with:
`preprocessorError` embeds the source's `PreprocessorError(error_message,
filename, line_number)`; the remaining constructors stand for the bare
Python exceptions that can escape `preprocess` — `KeyError` from
`defines[var]` in the `#include VAR` branch, `IOError` from `open` on a
missing file, and a `TypeError` stand-in for path operations on a
non-string value.  `outOfFuel` marks exhaustion of the recursion fuel of
the model (the source recurses unboundedly; fuel only limits include
nesting depth). -/
inductive PError where
  | preprocessorError (error_message : String) (filename : Option String)
      (line_number : Option Nat)
  | keyError (key : String)
  | ioError (path : String)
  | typeError (what : String)
  | outOfFuel
deriving DecidableEq

/-- Is the error the source's `PreprocessorError` (as opposed to a bare
Python exception)? -/
def isPreprocessorError : PError → Bool
  | .preprocessorError .. => true
  | _ => false

/-- The filename context carried by an error, if any. -/
def errFilename : PError → Option String
  | .preprocessorError _ f _ => f
  | _ => none

/-- The line-number context carried by an error, if any. -/
def errLine : PError → Option Nat
  | .preprocessorError _ _ n => n
  | _ => none

/-- defines['__FILE__'] rendered as the filename slot of an error, mirroring
how every raise site passes the current pseudo-variable. -/
def curFile (defines : Defines) : Option String :=
  match dlookup defines ("__FILE__") with
  | some v => some (pyStr v)
  | none => none

/-- defines['__LINE__'] rendered as the line-number slot of an error. -/
def curLine (defines : Defines) : Option Nat :=
  match dlookup defines ("__LINE__") with
  | some (.vint i) => some i.toNat
  | some _ => none
  | none => none

/-- Does `s` contain `pat` as a substring (Python `s.find(pat) > -1`)?
Assumes a non-empty `pat`, which is all the modelled caller passes. -/
def containsSub (s pat : String) : Bool :=
  2 ≤ (splitChars pat.data s.data).length

/-- Transcription of `_evaluate` (src/pepe/__init__.py lines 148-175): run the
expression through the (modelled) `eval` with globals holding only `defined`
and the variable table as locals; on an exception, rewrite the message — the
quoted-`defined` hint for a `NameError` whose name appears as defined(NAME)
in the expression, and the backquoted form for `"invalid syntax"` — and
re-raise it as a `PreprocessorError` carrying defines['__FILE__'] and
defines['__LINE__']. -/
def _evaluate (expression : String) (defines : Defines) : Except PError Value :=
  match pyEvalExpr expression defines with
  | .ok v => .ok v
  | .error message =>
    let message :=
      if pyStarts message ("name '") ∧ pyEnds message ("' is not defined") then
        let variable_name := pyDropRight (pyDrop message 6) 16
        if containsSub expression (("defined(") ++ variable_name ++ (")")) then
          message ++ (" (perhaps you want `defined('") ++ variable_name ++
            ("')` instead of `defined(") ++ variable_name ++ (")`)")
        else message
      else if pyStarts message ("invalid syntax") then
        ("invalid syntax: `") ++ expression ++ ("`")
      else message
    .error (.preprocessorError message (curFile defines) (curLine defines))

/-- A classified preprocessor statement: the result of the per-line regex
dispatch in `preprocess` (PREPROCESSOR_STATEMENT_REGEXP_PATTERNS plus the
branch on `match.group("op")`).  The two `#include` forms are distinct
constructors because the source distinguishes them by the presence of the
`var` capture group, and the quoted-path pattern is tried first. -/
inductive Stmt where
  | sdefine (var : String) (val : Option String)
  | sundef (var : String)
  | sincludeFile (fname : String)
  | sincludeVar (var : String)
  | sif (expr : String)
  | sifdef (name : String)
  | sifndef (name : String)
  | selif (expr : String)
  | selse
  | sendif
  | serror (message : String)
deriving DecidableEq

/-- One input line after the matching phase: either a plain content line
(no statement regex matched) carrying its full text including the newline,
or a matched preprocessor statement. -/
inductive PLine where
  | text (line : String)
  | stmt (s : Stmt)
deriving DecidableEq

/-- One conditional frame: the source's (<emit-or-skip>,
<have-emitted-in-this-if-block>, <have-seen-else-in-this-if-block>) tuple
with the SKIP/EMIT integers as a two-variant tag. -/
inductive Mode where
  | emit
  | skip
deriving DecidableEq

structure Frame where
  mode : Mode
  hasEmitted : Bool
  hasElse : Bool
deriving DecidableEq

/-- The frame stack, top frame first (the source keeps the top at the end of
a Python list; `states[-1]` is the head here, `states[-2]` the second
element). -/
abbrev Frames := List Frame

/-- Python states and states[-1][0] == SKIP: true iff the stack is
non-empty and the top frame is in SKIP mode. -/
def topIsSkip : Frames → Bool
  | [] => false
  | f :: _ => f.mode == Mode.skip

/-- Python states[:-1] and states[-2][0] == SKIP: true iff there is a
parent frame and it is in SKIP mode. -/
def parentIsSkip : Frames → Bool
  | [] => false
  | p :: _ => p.mode == Mode.skip

/-- The caller options `preprocess` reads from the command-line namespace. -/
structure Options where
  include_paths : List String
  should_keep_lines : Bool
  should_substitute : Bool

/-- The filesystem visible to the engine: path to classified lines.  A path
is taken to exist exactly when it has an entry (modelling `os.path.exists`
plus `open`). -/
abbrev Files := List (String × List PLine)

def flookup : Files → String → Option (List PLine)
  | [], _ => none
  | (k, v) :: rest, key => if k = key then some v else flookup rest key

/-- The state threaded through a run: the variable table, the list of
already-preprocessed absolute paths (`_preprocessed_files`, a single mutable
list shared by every recursive call in the source, hence threaded in and
out here), and the output accumulated so far (the temporary buffer that
deeper calls write into directly). -/
structure PState where
  defines : Defines
  preprocessed : List String
  out : String
deriving DecidableEq

/-- Modelled foreign code: `pathtools.path.absolute_path`.  All paths this
development feeds the engine are taken to be canonical already, so
canonicalization is the identity; what the claims need is only that equal
paths canonicalize equally and distinct concrete names stay distinct. -/
def absolutePath (p : String) : String := p

/-- Modelled foreign code: `os.path.dirname` on plain slash-separated
relative paths — the text before the last slash, empty when there is none. -/
def dirname (p : String) : String :=
  match ((splitChars [('/')] p.data).map String.mk).dropLast with
  | [] => ("")
  | parts => joinWith ("/") parts

/-- Modelled foreign code: `os.path.join` on the path shapes used here —
an absolute second component wins, an empty directory contributes nothing,
otherwise the components are joined with a slash. -/
def joinPath (d f : String) : String :=
  if pyStarts f ("/") then f
  else if d = ("") then f
  else if pyEnds d ("/") then d ++ f
  else d ++ ("/") ++ f

/-- Modelled foreign code: `os.path.normpath` restricted to the path shapes
used here — it only strips one leading "./". -/
def normpath (p : String) : String :=
  if pyStarts p ("./") then pyDrop p 2 else p

/-- Python repr of a list of strings, as interpolated by %r into the
include-not-found message. -/
def reprList (xs : List String) : String :=
  ("[") ++ joinWith (", ") (xs.map (fun s => ("'") ++ s ++ ("'"))) ++ ("]")

/-- The include search loop (src/pepe/__init__.py lines 327-330): try the
directory of the including file, then each include path in order; the first
candidate whose normalized join exists wins. -/
def findInclude (files : Files) (dirs : List String) (f : String) : Option String :=
  match dirs with
  | [] => none
  | d :: rest =>
      let fname := normpath (joinPath d f)
      if (flookup files fname).isSome then some fname
      else findInclude files rest f

/-- Stable insertion (ascending length) used to model
`sorted(defines, key=len)`. -/
def insertByLen (x : String) : List String → List String
  | [] => [x]
  | y :: ys => if x.length ≤ y.length then x :: y :: ys else y :: insertByLen x ys

def sortByLen (l : List String) : List String := l.foldr insertByLen []

/-- The optional substitution pass over an emitted line (src lines 427-430):
every defined name, longest first, is text-replaced by `str()` of its value. -/
def substituteLine (defines : Defines) (line : String) : String :=
  ((sortByLen (defines.map (fun kv => kv.1))).reverse).foldl
    (fun sline name =>
      pyReplace sline name (pyStr ((dlookup defines name).getD Value.vnone)))
    line

/-- The push step shared by `#if`/`#ifdef`/`#ifndef` (src lines 344-363):
inside a SKIP section push a SKIP frame without evaluating; otherwise
evaluate the (already normalized) expression and push EMIT-with-emitted on
a truthy result, SKIP otherwise.  `_evaluate` failures propagate as the
`PreprocessorError` it raised. -/
def ifPush (expr : String) (states : Frames) (st : PState) :
    Except PError (Frames × PState) :=
  if topIsSkip states then
    .ok (⟨Mode.skip, false, false⟩ :: states, st)
  else
    match _evaluate expr st.defines with
    | .error e => .error e
    | .ok v =>
      if truthy v then .ok (⟨Mode.emit, true, false⟩ :: states, st)
      else .ok (⟨Mode.skip, false, false⟩ :: states, st)

/-- One matched statement, transcribed from the dispatch on
`match.group("op")` (src/pepe/__init__.py lines 296-416).  `recur` is the
recursive invocation of the whole engine that the `#include` branch makes;
the caller supplies it (the fuelled `preprocessFile` below), which keeps
each function structurally recursive. -/
def stepStmt (files : Files) (recur : String → PState → Except PError PState)
    (options : Options) (input_filename : String) (s : Stmt)
    (states : Frames) (st : PState) : Except PError (Frames × PState) :=
  match s with
  | .sdefine var val =>
      if !topIsSkip states then
        let value : Value :=
          match val with
          | none => Value.vnone
          | some v =>
              match pyLiteral v with
              | some value => value
              | none => .vstr v
        .ok (states, { st with defines := dinsert st.defines var value })
      else .ok (states, st)
  | .sundef var =>
      if !topIsSkip states then
        .ok (states, { st with defines := dremove st.defines var })
      else .ok (states, st)
  | .sincludeFile f =>
      if !topIsSkip states then
        match findInclude files (dirname input_filename :: options.include_paths) f with
        | none =>
            .error (.preprocessorError
              (("could not find #include'd file \"") ++ f ++
               ("\" on include path: ") ++ reprList options.include_paths)
              none none)
        | some fname =>
            match recur fname st with
            | .error e => .error e
            | .ok st2 => .ok (states, st2)
      else .ok (states, st)
  | .sincludeVar var =>
      if !topIsSkip states then
        match dlookup st.defines var with
        | none => .error (.keyError var)
        | some (.vstr f) =>
            match findInclude files (dirname input_filename :: options.include_paths) f with
            | none =>
                .error (.preprocessorError
                  (("could not find #include'd file \"") ++ f ++
                   ("\" on include path: ") ++ reprList options.include_paths)
                  none none)
            | some fname =>
                match recur fname st with
                | .error e => .error e
                | .ok st2 => .ok (states, st2)
        | some _ => .error (.typeError var)
      else .ok (states, st)
  | .sif expr => ifPush expr states st
  | .sifdef name => ifPush (("defined('") ++ name ++ ("')")) states st
  | .sifndef name => ifPush (("not defined('") ++ name ++ ("')")) states st
  | .selif expr =>
      match states with
      | [] =>
          .error (.preprocessorError ("#elif stmt without leading #if stmt")
            (curFile st.defines) (curLine st.defines))
      | top :: rest =>
          if top.hasElse then
            .error (.preprocessorError ("illegal #elif after #else in same #if block")
              (curFile st.defines) (curLine st.defines))
          else if top.hasEmitted then
            .ok (⟨Mode.skip, true, false⟩ :: rest, st)
          else if parentIsSkip rest then
            .ok (⟨Mode.skip, false, false⟩ :: rest, st)
          else
            match _evaluate expr st.defines with
            | .error e => .error e
            | .ok v =>
                if truthy v then .ok (⟨Mode.emit, true, false⟩ :: rest, st)
                else .ok (⟨Mode.skip, false, false⟩ :: rest, st)
  | .selse =>
      match states with
      | [] =>
          .error (.preprocessorError ("#else stmt without leading #if stmt")
            (curFile st.defines) (curLine st.defines))
      | top :: rest =>
          if top.hasElse then
            .error (.preprocessorError ("illegal #else after #else in same #if block")
              (curFile st.defines) (curLine st.defines))
          else if top.hasEmitted then
            .ok (⟨Mode.skip, true, true⟩ :: rest, st)
          else if parentIsSkip rest then
            .ok (⟨Mode.skip, false, true⟩ :: rest, st)
          else
            .ok (⟨Mode.emit, true, true⟩ :: rest, st)
  | .sendif =>
      match states with
      | [] =>
          .error (.preprocessorError ("#endif stmt without leading #ifstmt")
            (curFile st.defines) (curLine st.defines))
      | _ :: rest => .ok (rest, st)
  | .serror message =>
      if !topIsSkip states then
        .error (.preprocessorError (("#error: ") ++ message)
          (curFile st.defines) (curLine st.defines))
      else .ok (states, st)

/-- The per-line loop of `preprocess` (src lines 280-440): bump the line
number, overwrite defines['__LINE__'], then either run the matched
statement (followed by the keep-lines blank line) or emit/suppress the
plain line according to the top frame, raising the superfluous-endif error
when the stack is empty. -/
def processLines (files : Files) (recur : String → PState → Except PError PState)
    (options : Options) (input_filename : String) :
    List PLine → Nat → Frames → PState → Except PError (Frames × PState)
  | [], _, states, st => .ok (states, st)
  | .stmt s :: rest, line_number, states, st =>
      let line_number := line_number + 1
      let st : PState :=
        { st with defines := dinsert st.defines ("__LINE__") (.vint (Int.ofNat line_number)) }
      match stepStmt files recur options input_filename s states st with
      | .error e => .error e
      | .ok (states, st) =>
          let st :=
            if options.should_keep_lines then { st with out := st.out ++ ("\n") }
            else st
          processLines files recur options input_filename rest line_number states st
  | .text l :: rest, line_number, states, st =>
      let line_number := line_number + 1
      let st : PState :=
        { st with defines := dinsert st.defines ("__LINE__") (.vint (Int.ofNat line_number)) }
      match states with
      | [] =>
          .error (.preprocessorError ("superfluous #endif before this line")
            (curFile st.defines) (curLine st.defines))
      | top :: _ =>
          match top.mode with
          | .emit =>
              let sline := if options.should_substitute then substituteLine st.defines l else l
              processLines files recur options input_filename rest line_number states
                { st with out := st.out ++ sline }
          | .skip =>
              if options.should_keep_lines then
                processLines files recur options input_filename rest line_number states
                  { st with out := st.out ++ ("\n") }
              else
                processLines files recur options input_filename rest line_number states st

/-- One invocation of `preprocess` on a file (src lines 210-454): reject a
path whose canonical absolute form was already preprocessed in this run,
record it, set defines['__FILE__'], stream the lines through the state
machine starting from the single implicit root frame, and apply the
end-of-file stack checks.  The fuel bounds include nesting depth only; the
source recurses with no bound. -/
def preprocessFile (files : Files) (options : Options) :
    Nat → String → PState → Except PError PState
  | 0, _, _ => .error PError.outOfFuel
  | fuel + 1, input_filename, st =>
      let abs := absolutePath input_filename
      if abs ∈ st.preprocessed then
        .error (.preprocessorError
          (("detected recursive #include of '") ++ input_filename ++ ("'")) none none)
      else
        match flookup files input_filename with
        | none => .error (.ioError input_filename)
        | some input_lines =>
            let st : PState :=
              { st with
                preprocessed := st.preprocessed ++ [abs],
                defines := dinsert st.defines ("__FILE__") (.vstr input_filename) }
            match processLines files (preprocessFile files options fuel) options
                input_filename input_lines 0 [⟨Mode.emit, false, false⟩] st with
            | .error e => .error e
            | .ok (states, st) =>
                if 1 < states.length then
                  .error (.preprocessorError ("unterminated #if block")
                    (curFile st.defines) (curLine st.defines))
                else if states.length < 1 then
                  .error (.preprocessorError ("superfluous #endif on or before this line")
                    (curFile st.defines) (curLine st.defines))
                else .ok st

/-- A top-level run: empty preprocessed set, empty output buffer, the given
initial variable table. -/
def preprocess (fuel : Nat) (files : Files) (options : Options)
    (input_filename : String) (defines : Defines) : Except PError PState :=
  preprocessFile files options fuel input_filename ⟨defines, [], ("")⟩

/-- The output a run produced, `none` when it aborted with an error. -/
def runOut (r : Except PError PState) : Option String :=
  match r with
  | .ok st => some st.out
  | .error _ => none

/-- The value a run left in the variable table under `key`. -/
def runDefine (r : Except PError PState) (key : String) : Option Value :=
  match r with
  | .ok st => dlookup st.defines key
  | .error _ => none

/-- The error a run aborted with, `none` when it succeeded. -/
def runError (r : Except PError PState) : Option PError :=
  match r with
  | .ok _ => none
  | .error e => some e

/-- Modelled foreign code: CPython `int(token, 16)` as called by
`parse_int_token` — strips an optional "0x"/"0X", then requires a
non-empty hexadecimal digit string; `none` stands for `ValueError`. -/
def pyIntBase16 (token : String) : Option Int :=
  let t := pyStrip token
  let t := if pyStarts t ("0x") ∨ pyStarts t ("0X") then pyDrop t 2 else t
  if t = ("") then none
  else (natOfDigits 16 t.data).map Int.ofNat

/-- Modelled foreign code: CPython `int(token, 8)`: a non-empty octal digit
string ("09" is a `ValueError`, hence `none`). -/
def pyIntBase8 (token : String) : Option Int :=
  let t := pyStrip token
  if t = ("") then none
  else (natOfDigits 8 t.data).map Int.ofNat

/-- Modelled foreign code: CPython `int(token)`: surrounding whitespace is
stripped, then a non-empty decimal digit string is required (signs are
outside the fragment this development exercises). -/
def pyIntBase10 (token : String) : Option Int :=
  let t := pyStrip token
  if t = ("") then none
  else (natOfDigits 10 t.data).map Int.ofNat

/-- Transcription of `parse_int_token` (src lines 457-486): hexadecimal for
a "0x"/"0X"-led token, octal for a "0"-led token, decimal otherwise;
`none` models the `ValueError` escape. -/
def parse_int_token (token : String) : Option Int :=
  if pyStarts token ("0x") ∨ pyStarts token ("0X") then pyIntBase16 token
  else if pyStarts token ("0") then pyIntBase8 token
  else pyIntBase10 token

/-- Transcription of `parse_bool_token` (src lines 489-512): `true`/`false`
ignoring case, the token itself otherwise. -/
def parse_bool_token (token : String) : Value :=
  if pyLower token = ("true") then .vbool true
  else if pyLower token = ("false") then .vbool false
  else .vstr token

/-- Modelled foreign code: CPython `float(token)` on the plain decimal
fragment digits.digits (either side possibly empty, not both); exponents
and signs are outside the fragment — the source's own docstring already
documents `2e-23` as unsupported by `parse_number_token`. -/
def pyFloatQ (s : String) : Option Rat :=
  let t := pyStrip s
  match splitChars [('.')] t.data with
  | [a, b] =>
      if a.all Char.isDigit ∧ b.all Char.isDigit ∧ (a ++ b) ≠ [] then
        match natOfDigits 10 a, natOfDigits 10 b with
        | some ia, some ib =>
            some ((ia : Rat) + (ib : Rat) / ((10 : Rat) ^ b.length))
        | _, _ => none
      else none
  | _ => none

/-- Transcription of `parse_number_token` (src lines 515-547): a token
containing a dot goes through `float`, any other through
`parse_int_token`; `none` models the `ValueError` escape. -/
def parse_number_token (token : String) : Option Value :=
  if token.data.contains ('.') then (pyFloatQ token).map .vfloat
  else (parse_int_token token).map .vint

/-- Python expr.split('=', 1) when used as a two-element unpacking: the
text before the first occurrence and the rest, `none` (an unpacking
ValueError) when the character does not occur. -/
def splitOnceEq (expr : String) : Option (String × String) :=
  (splitOnce ('=') expr.data).map (fun p => (String.mk p.1, String.mk p.2))

/-- Transcription of `parse_definition_expr` (src lines 550-621): split at
the first "=", parse the value as a number, falling back to
boolean-or-string; without an "=", a non-empty expression pairs with the
default value; the name is stripped and must be non-empty.  Errors carry
the source's ValueError messages. -/
def parse_definition_expr (expr : String) (default_value : Value) :
    Except String (String × Value) :=
  let checked : String → Value → Except String (String × Value) := fun define value =>
    let d := pyStrip define
    if d ≠ ("") then .ok (d, value)
    else .error (("Invalid definition symbol `") ++ define ++ ("`"))
  match splitOnceEq expr with
  | some (define, value) =>
      let value : Value :=
        match parse_number_token value with
        | some v => v
        | none => parse_bool_token value
      checked define value
  | none =>
      if expr ≠ ("") then checked expr default_value
      else .error (("Invalid definition expression `") ++ expr ++ ("`"))

/-- The content-types database (src/pepe/content_types.py): the three
name-based maps `add_config` fills.  Filename and extension entries are
association lists; a compiled regular expression is modelled as its
matching predicate on basenames, so the regex map is a list of
predicate/content-type pairs in registration order.  The source keeps this
map in a Python dict whose iteration order is unspecified, which is why
`guess_content_type` below takes the iteration sequence separately. -/
structure CTDatabase where
  filename_map : List (String × String)
  extension_map : List (String × String)
  regexp_map : List ((String → Bool) × String)

def alookup {α : Type} : List (String × α) → String → Option α
  | [], _ => none
  | (k, v) :: rest, key => if k = key then some v else alookup rest key

/-- Modelled foreign code: `os.path.basename` on slash-separated paths. -/
def basename (p : String) : String :=
  (((splitChars [('/')] p.data).map String.mk).getLast?).getD p

/-- Python not content_type: the resolver treats both a missing and an
empty content type as unresolved. -/
def ctFalsy : Option String → Bool
  | none => true
  | some s => s == ("")

/-- The extension the resolver derives from a basename: "." plus the last
dot-segment (src/pepe/content_types.py line 271), on non-Windows platforms
without case folding, as modelled here. -/
def extOf (file_basename : String) : String :=
  (".") ++ ((((splitChars [('.')] file_basename.data).map String.mk).getLast?).getD (""))

/-- The regex step of `guess_content_type`: the first matching entry of the
iteration sequence wins. -/
def firstRegex : List ((String → Bool) × String) → String → Option String
  | [], _ => none
  | (m, t) :: rest, b => if m b then some t else firstRegex rest b

/-- The name-based part of `guess_content_type` (src/pepe/content_types.py
lines 260-288): exact basename, then the "." + last dot-segment extension
(on non-Windows platforms without case folding, as modelled here), then the
first matching regular expression of the iteration sequence `iterRegexps`
— the order in which Python happens to enumerate the regex dict, an
unspecified permutation of the registration order `db.regexp_map`. -/
def guessByName (db : CTDatabase) (iterRegexps : List ((String → Bool) × String))
    (file_basename : String) : Option String :=
  let ct : Option String := none
  let ct :=
    if ctFalsy ct then
      match alookup db.filename_map file_basename with
      | some t => some t
      | none => ct
    else ct
  let ct :=
    if ctFalsy ct && file_basename.data.contains ('.') then
      match alookup db.extension_map (extOf file_basename) with
      | some t => some t
      | none => ct
    else ct
  let ct :=
    if ctFalsy ct then
      match firstRegex iterRegexps file_basename with
      | some t => some t
      | none => ct
    else ct
  ct

/-- Transcription of `ContentTypesDatabase.guess_content_type` (src lines
232-299): the three name-based steps, then — whenever the file exists —
the cheap XML sniff, which forces the type to "XML" when the contents
start with the five bytes of an XML declaration and otherwise leaves the
name-based result standing.  `contents` is the path-to-contents view of
the filesystem used by `os.path.exists` and `open`. -/
def guess_content_type (db : CTDatabase)
    (iterRegexps : List ((String → Bool) × String))
    (contents : List (String × String)) (pathname : String) : Option String :=
  let ct := guessByName db iterRegexps (basename pathname)
  match alookup contents pathname with
  | some content => if pyStarts content ("<?xml") then some ("XML") else ct
  | none => ct

/-- The keys of the globals dictionary `_evaluate` hands to `eval`
(src line 156): only the `defined` predicate. -/
def evalGlobalsKeys : List String := [("defined")]

/-- Modelled foreign code: representative names from the CPython builtin
namespace — file, process and evaluation capabilities among them. -/
def pyBuiltinNames : List String :=
  [("open"), ("file"), ("__import__"), ("eval"), ("execfile"), ("reload"), ("input")]

/-- Modelled foreign code: the documented CPython scoping rule for `eval` —
when the globals mapping passed in has no "__builtins__" key, the
interpreter inserts a reference to the full builtin namespace before
evaluating, so every builtin name becomes reachable from the expression in
addition to the globals and locals supplied. -/
def evalReachableNames (globalsKeys localsKeys : List String) : List String :=
  if ("__builtins__") ∈ globalsKeys then globalsKeys ++ localsKeys
  else ("__builtins__") :: pyBuiltinNames ++ globalsKeys ++ localsKeys

/-- The scope the specification asserts for expression evaluation: the
variable table and the `defined` predicate, nothing else. -/
def claimedScope (tableKeys : List String) : List String :=
  ("defined") :: tableKeys

/-- The default command-line option values (argparse defaults): include
path ['.'], keep-lines off, substitution off. -/
def defOptions : Options := ⟨[(".")], false, false⟩

/-- A recursion stub for stating single-statement facts about `stepStmt`:
any attempted include aborts. -/
def noRecur : String → PState → Except PError PState :=
  fun f _ => .error (.ioError f)

/-- Byte-for-byte concatenation of a list of lines (the content of a file is
the concatenation of its `readlines` lines). -/
def concatAll : List String → String
  | [] => ("")
  | l :: ls => l ++ concatAll ls

/-- The filesystem of the C5 runs: "a" includes "b" and then has one more
line of its own. -/
def fsC5 : Files :=
  [(("a"), [.stmt (.sincludeFile ("b")), .text ("P\n")]),
   (("b"), [.text ("Q\n")])]

/-- Claim C1, counterexample: the input whose single directive line is
`#elif 0`, processed while the stack holds only the implicit root frame,
does not raise ElifWithoutIf — the run succeeds, and the root frame's mode
was switched to SKIP by the `#elif` (the following content line is
suppressed, so the output is empty). -/
theorem C1_counterexample :
    runOut (preprocess 2 [(("a"), [.stmt (.selif ("0")), .text ("hello\n")])]
      defOptions ("a") []) = some ("") := rfl

/-- Claim C1, amended: the `#elif stmt without leading #if stmt` error is
raised only when the frame stack is empty (that is, after a superfluous
`#endif` has already popped the root frame); when the stack holds only the
root frame, the `#elif` is applied to the root frame itself — a false
condition switches it to SKIP, suppressing the rest of the file without an
error, and a true condition leaves it emitting. -/
theorem C1_thm :
    (∀ (files : Files) (recur : String → PState → Except PError PState)
        (options : Options) (fn expr : String) (st : PState),
        stepStmt files recur options fn (.selif expr) [] st =
          .error (.preprocessorError ("#elif stmt without leading #if stmt")
            (curFile st.defines) (curLine st.defines)))
    ∧ runOut (preprocess 2 [(("a"), [.stmt (.selif ("0")), .text ("hello\n")])]
        defOptions ("a") []) = some ("")
    ∧ runOut (preprocess 2 [(("a"), [.stmt (.selif ("1")), .text ("hello\n")])]
        defOptions ("a") []) = some ("hello\n") :=
  ⟨fun _ _ _ _ _ _ => rfl, rfl, rfl⟩

/-- Claim C2, counterexample: a lone `#endif` does not raise EndifWithoutIf
at the directive — the pop of the root frame succeeds, and the run aborts
only at the end-of-file stack check, with the distinct superfluous-endif
message (the source's EndifWithoutIf message, a quirk of its string
continuation, is `#endif stmt without leading #ifstmt`). -/
theorem C2_counterexample :
    runError (preprocess 2 [(("a"), [.stmt .sendif])] defOptions ("a") []) =
      some (.preprocessorError ("superfluous #endif on or before this line")
        (some ("a")) (some 1))
    ∧ ("superfluous #endif on or before this line") ≠
        ("#endif stmt without leading #ifstmt") :=
  ⟨rfl, by decide⟩

/-- Claim C2, amended: an `#endif` with a non-empty stack always pops,
including the root frame; a lone `#endif` therefore empties the stack and
the error is raised afterwards — at the next plain line as the
superfluous-endif-before-this-line error, or at end of file as the
superfluous-endif-on-or-before-this-line error; the EndifWithoutIf message
(endif stmt without leading, then ifstmt) is raised only by an `#endif`
encountered when the stack is already empty. -/
theorem C2_thm :
    (∀ (files : Files) (recur : String → PState → Except PError PState)
        (options : Options) (fn : String) (st : PState) (top : Frame) (rest : Frames),
        stepStmt files recur options fn .sendif (top :: rest) st = .ok (rest, st))
    ∧ (∀ (files : Files) (recur : String → PState → Except PError PState)
        (options : Options) (fn : String) (st : PState),
        stepStmt files recur options fn .sendif [] st =
          .error (.preprocessorError ("#endif stmt without leading #ifstmt")
            (curFile st.defines) (curLine st.defines)))
    ∧ runError (preprocess 2 [(("a"), [.stmt .sendif])] defOptions ("a") []) =
        some (.preprocessorError ("superfluous #endif on or before this line")
          (some ("a")) (some 1))
    ∧ runError (preprocess 2 [(("a"), [.stmt .sendif, .stmt .sendif])] defOptions ("a") []) =
        some (.preprocessorError ("#endif stmt without leading #ifstmt")
          (some ("a")) (some 2))
    ∧ runError (preprocess 2 [(("a"), [.stmt .sendif, .text ("x\n")])] defOptions ("a") []) =
        some (.preprocessorError ("superfluous #endif before this line")
          (some ("a")) (some 2)) :=
  ⟨fun _ _ _ _ _ _ _ => rfl, fun _ _ _ _ _ => rfl, rfl, rfl, rfl⟩

/-- Claim C3, counterexample: the globals dictionary `_evaluate` passes to
`eval` lacks "__builtins__", so under the interpreter's documented rule the
builtin `open` is reachable from an evaluated expression, while the scope
the claim asserts (variable table plus `defined`) does not contain it. -/
theorem C3_counterexample :
    ("open") ∈ evalReachableNames evalGlobalsKeys [("FOO")]
    ∧ ("open") ∉ claimedScope [("FOO")] := by
  constructor <;> decide

/-- Claim C3, amended: the scope reachable from an evaluated expression is
the variable table, the `defined` predicate, and — because the globals
dictionary passed to `eval` does not strip "__builtins__" — the entire
builtin namespace, so file/process capabilities such as `open` are
reachable from every evaluated expression (the source's own docstring warns
that this use of `eval` is unsafe). -/
theorem C3_thm (tableKeys : List String) :
    evalReachableNames evalGlobalsKeys tableKeys =
      ("__builtins__") :: pyBuiltinNames ++ ("defined") :: tableKeys
    ∧ ("open") ∈ evalReachableNames evalGlobalsKeys tableKeys := by
  refine ⟨rfl, ?_⟩
  have h : ("open") ∈ pyBuiltinNames := by decide
  exact List.mem_cons_of_mem _ (List.mem_append_left _ (List.mem_append_left _ h))

/-- Claim C4, counterexample: the directive `#define X true`, taking effect
in EMIT mode, stores the literal string "true" in the variable table (the
value is evaluated as a Python expression in an empty scope, where the
lowercase name `true` is unbound, and the failure keeps the matched text),
not the boolean the claim's case-insensitive parse would produce. -/
theorem C4_counterexample :
    runDefine (preprocess 2 [(("a"), [.stmt (.sdefine ("X") (some ("true")))])]
      defOptions ("a") []) ("X") = some (.vstr ("true"))
    ∧ Value.vstr ("true") ≠ Value.vbool true :=
  ⟨rfl, by decide⟩

/-- Claim C4, amended: a `#define name value` directive that takes effect
evaluates `value` as a Python expression in an empty scope and stores the
result, keeping the literal text as a string when evaluation fails — so
`0x40` stores the integer 64, `040` the integer 32, `True` the boolean, but
`true` (not a Python literal) stays the string "true" — and `#define name`
with no value stores the None marker; the decimal/hex/octal-integer, float,
and case-insensitive-boolean parse the claim describes is performed by
`parse_definition_expr`, which serves the command-line definitions. -/
theorem C4_thm :
    (∀ (files : Files) (recur : String → PState → Except PError PState)
        (options : Options) (fn var v : String) (states : Frames) (st : PState),
        topIsSkip states = false →
        stepStmt files recur options fn (.sdefine var (some v)) states st =
          .ok (states,
            { st with defines := dinsert st.defines var ((pyLiteral v).getD (.vstr v)) }))
    ∧ runDefine (preprocess 2 [(("a"), [.stmt (.sdefine ("X") (some ("0x40")))])]
        defOptions ("a") []) ("X") = some (.vint 64)
    ∧ runDefine (preprocess 2 [(("a"), [.stmt (.sdefine ("X") (some ("040")))])]
        defOptions ("a") []) ("X") = some (.vint 32)
    ∧ runDefine (preprocess 2 [(("a"), [.stmt (.sdefine ("X") (some ("True")))])]
        defOptions ("a") []) ("X") = some (.vbool true)
    ∧ runDefine (preprocess 2 [(("a"), [.stmt (.sdefine ("X") (some ("true")))])]
        defOptions ("a") []) ("X") = some (.vstr ("true"))
    ∧ runDefine (preprocess 2 [(("a"), [.stmt (.sdefine ("X") none)])]
        defOptions ("a") []) ("X") = some Value.vnone
    ∧ parse_definition_expr ("FOOBAR=0x40") Value.vnone = .ok (("FOOBAR"), .vint 64)
    ∧ parse_definition_expr ("DEBUG=1") Value.vnone = .ok (("DEBUG"), .vint 1)
    ∧ parse_definition_expr ("FOOBAR=4.0") Value.vnone = .ok (("FOOBAR"), .vfloat 4)
    ∧ parse_definition_expr ("FOOBAR=false") Value.vnone = .ok (("FOOBAR"), .vbool false)
    ∧ parse_definition_expr ("FOOBAR=TRUE") Value.vnone = .ok (("FOOBAR"), .vbool true)
    ∧ parse_definition_expr ("FOOBAR=whatever") Value.vnone = .ok (("FOOBAR"), .vstr ("whatever"))
    ∧ parse_definition_expr ("FOOBAR") Value.vnone = .ok (("FOOBAR"), Value.vnone) := by
  refine ⟨?_, rfl, rfl, rfl, rfl, rfl, rfl, rfl, ?_, rfl, rfl, rfl, rfl⟩
  · intro files recur options fn var v states st h
    cases hv : pyLiteral v <;> simp [stepStmt, h, hv]
  · have h : (((4 : Nat) : Rat) + ((0 : Nat) : Rat) / ((10 : Rat) ^ (1 : Nat))) = 4 := by
      norm_num
    calc parse_definition_expr ("FOOBAR=4.0") Value.vnone
        = .ok (("FOOBAR"),
            .vfloat (((4 : Nat) : Rat) + ((0 : Nat) : Rat) / ((10 : Rat) ^ (1 : Nat)))) := rfl
      _ = .ok (("FOOBAR"), .vfloat 4) := by rw [h]

/-- Witness for the hypothesis of the general conjunct of the C4 theorem,
at a concrete EMIT-mode state. -/
theorem C4_witness :
    stepStmt [] noRecur defOptions ("a") (.sdefine ("X") (some ("true")))
      [⟨Mode.emit, false, false⟩] ⟨[], [], ("")⟩ =
      .ok ([⟨Mode.emit, false, false⟩],
        ⟨dinsert [] ("X") ((pyLiteral ("true")).getD (.vstr ("true"))), [], ("")⟩) :=
  C4_thm.1 [] noRecur defOptions ("a") ("X") ("true")
    [⟨Mode.emit, false, false⟩] ⟨[], [], ("")⟩ rfl

/-- Claim C5, counterexample: in a file "a" whose line 1 includes "b" and
whose line 2 is `#error boom`, the error raised at line 2 of "a" carries
filename "b" — after the nested include returned, defines['__FILE__'] still
names the included file, not the file currently being processed. -/
theorem C5_counterexample :
    runError (preprocess 3 [(("a"), [.stmt (.sincludeFile ("b")), .stmt (.serror ("boom"))]),
        (("b"), [.text ("Q\n")])] defOptions ("a") []) =
      some (.preprocessorError ("#error: boom") (some ("b")) (some 2))
    ∧ (("b") : String) ≠ ("a") :=
  ⟨rfl, by decide⟩

/-- Claim C5, amended: defines['__LINE__'] is overwritten before every line
and always reflects the position in the file currently being processed, but
defines['__FILE__'] is written only on entry to a file and is not restored
when a nested include returns — for the rest of the including file it still
names the most recently entered file.  Line 2 of "a" (after including "b")
raises with filename "b" and line 2; without an include the same directive
reports its own file; and a completed run that ends after an include leaves
`__FILE__` = "b", `__LINE__` = 2 in the table while output shows line 2 of
"a" was the last line processed. -/
theorem C5_thm :
    runError (preprocess 3 [(("a"), [.stmt (.sincludeFile ("b")), .stmt (.serror ("boom"))]),
        (("b"), [.text ("Q\n")])] defOptions ("a") []) =
      some (.preprocessorError ("#error: boom") (some ("b")) (some 2))
    ∧ runError (preprocess 3 [(("a"), [.stmt (.serror ("boom"))])] defOptions ("a") []) =
        some (.preprocessorError ("#error: boom") (some ("a")) (some 1))
    ∧ runDefine (preprocess 3 fsC5 defOptions ("a") []) ("__FILE__") = some (.vstr ("b"))
    ∧ runDefine (preprocess 3 fsC5 defOptions ("a") []) ("__LINE__") = some (.vint 2)
    ∧ runOut (preprocess 3 fsC5 defOptions ("a") []) = some ("Q\nP\n") :=
  ⟨rfl, rfl, rfl, rfl, rfl⟩

/-- Helper for C6: streaming plain content lines through the state machine
with a single EMIT frame (substitution disabled) emits them verbatim,
touching nothing of the state but defines['__LINE__']. -/
theorem processLines_text_emit (files : Files)
    (recur : String → PState → Except PError PState) (options : Options)
    (fn : String) (hsub : options.should_substitute = false) :
    ∀ (ls : List String) (n : Nat) (e el : Bool) (st : PState),
      ∃ d, processLines files recur options fn (ls.map PLine.text) n
          [⟨Mode.emit, e, el⟩] st =
        .ok ([⟨Mode.emit, e, el⟩], ⟨d, st.preprocessed, st.out ++ concatAll ls⟩) := by
  intro ls
  induction ls with
  | nil =>
      intro n e el st
      exact ⟨st.defines, by simp [processLines, concatAll, String.append_empty]⟩
  | cons l ls ih =>
      intro n e el st
      obtain ⟨d, hd⟩ := ih (n + 1) e el
        ⟨dinsert st.defines ("__LINE__") (.vint (Int.ofNat (n + 1))),
          st.preprocessed, st.out ++ l⟩
      refine ⟨d, ?_⟩
      simp only [List.map_cons, processLines, hsub, Bool.false_eq_true, if_false]
      rw [hd]
      simp [concatAll, String.append_assoc]

/-- Claim C6 (confirmed): a file none of whose lines matches a directive
pattern is reproduced byte for byte — with substitution at its default
(disabled), the run succeeds and the output is exactly the concatenation of
the input lines, for every variable table, include path set and keep-lines
setting. -/
theorem C6_thm (fn : String) (ls : List String) (defines : Defines)
    (options : Options) (fuel : Nat)
    (hsub : options.should_substitute = false) :
    runOut (preprocess (fuel + 1) [(fn, ls.map PLine.text)] options fn defines) =
      some (concatAll ls) := by
  obtain ⟨d, hd⟩ := processLines_text_emit [(fn, ls.map PLine.text)]
    (preprocessFile [(fn, ls.map PLine.text)] options fuel) options fn hsub ls 0
    false false
    ⟨dinsert defines ("__FILE__") (.vstr fn), [absolutePath fn], ("")⟩
  have hfl : flookup [(fn, ls.map PLine.text)] fn = some (ls.map PLine.text) := by
    simp [flookup]
  simp only [preprocess, preprocessFile, absolutePath, List.not_mem_nil, if_false,
    List.nil_append]
  simp only [hfl]
  simp only [absolutePath] at hd
  rw [hd]
  simp [runOut, String.empty_append]

/-- Witness for the C6 theorem at a concrete two-line file. -/
theorem C6_witness :
    runOut (preprocess 1 [(("a"), ([("x\n"), ("y\n")]).map PLine.text)]
      defOptions ("a") []) = some (concatAll [("x\n"), ("y\n")]) :=
  C6_thm ("a") [("x\n"), ("y\n")] [] defOptions 0 rfl

/-- A matcher for the C7 counterexample: basenames beginning with "a". -/
def exM1 : String → Bool := fun s => pyStarts s ("a")

/-- A matcher for the C7 counterexample: basenames ending with "b". -/
def exM2 : String → Bool := fun s => pyEnds s ("b")

/-- A database registering, in this order, exM1 with type T1 and exM2 with
type T2; both match the basename "ab". -/
def exDB : CTDatabase := ⟨[], [], [(exM1, ("T1")), (exM2, ("T2"))]⟩

/-- Claim C7, counterexample: the regex step follows the dict iteration
sequence, not registration order — under the iteration order that lists the
second-registered pattern first (a permutation of the registration list,
which is all Python guarantees about dict iteration), the resolver answers
T2 for "ab", while registration order would answer T1. -/
theorem C7_counterexample :
    guess_content_type exDB [(exM2, ("T2")), (exM1, ("T1"))] [] ("ab") = some ("T2")
    ∧ guess_content_type exDB exDB.regexp_map [] ("ab") = some ("T1")
    ∧ List.Perm [(exM2, ("T2")), (exM1, ("T1"))] exDB.regexp_map
    ∧ (("T2") : String) ≠ ("T1") :=
  ⟨rfl, rfl, List.Perm.swap (exM1, ("T1")) (exM2, ("T2")) [], by decide⟩

/-- Claim C7, amended: resolution tries the exact basename, then the
extension, then the registered regular expressions in the dict's iteration
sequence — an unspecified permutation of registration order, so the claim's
"registration order" is not guaranteed when several registered patterns
match; a non-empty exact-basename hit always wins over the later steps; a
non-empty extension hit (on a basename the filename map misses) wins over
every registered regular expression; the regex step decides exactly when
the basename and extension steps both miss; and whenever the file exists,
content sniffing runs and first bytes `<?xml` force the type to "XML" over
any name-based result, while a path with no entry on disk resolves purely
by name. -/
theorem C7_thm :
    (∀ (db : CTDatabase) (iter : List ((String → Bool) × String))
        (contents : List (String × String)) (pathname content : String),
        alookup contents pathname = some content →
        pyStarts content ("<?xml") = true →
        guess_content_type db iter contents pathname = some ("XML"))
    ∧ (∀ (db : CTDatabase) (iter : List ((String → Bool) × String))
        (contents : List (String × String)) (pathname : String),
        alookup contents pathname = none →
        guess_content_type db iter contents pathname =
          guessByName db iter (basename pathname))
    ∧ (∀ (db : CTDatabase) (iter : List ((String → Bool) × String))
        (pathname t : String),
        alookup db.filename_map (basename pathname) = some t →
        t ≠ ("") →
        guessByName db iter (basename pathname) = some t)
    ∧ (∀ (db : CTDatabase) (iter : List ((String → Bool) × String))
        (file_basename t : String),
        alookup db.filename_map file_basename = none →
        file_basename.data.contains ('.') = true →
        alookup db.extension_map (extOf file_basename) = some t →
        t ≠ ("") →
        guessByName db iter file_basename = some t)
    ∧ (∀ (db : CTDatabase) (iter : List ((String → Bool) × String))
        (file_basename : String),
        alookup db.filename_map file_basename = none →
        (file_basename.data.contains ('.') = false ∨
          alookup db.extension_map (extOf file_basename) = none) →
        guessByName db iter file_basename = firstRegex iter file_basename) := by
  refine ⟨?_, ?_, ?_, ?_, ?_⟩
  · intro db iter contents pathname content h1 h2
    simp [guess_content_type, h1, h2]
  · intro db iter contents pathname h1
    simp [guess_content_type, h1]
  · intro db iter pathname t h1 h2
    simp [guessByName, ctFalsy, h1, h2]
  · intro db iter file_basename t h1 h2 h3 h4
    have h2' : ('.') ∈ file_basename.data := by simpa using h2
    simp [guessByName, ctFalsy, h1, h2', h3, h4]
  · intro db iter file_basename h1 h2
    rcases h2 with h2 | h2
    · have h2' : ('.') ∉ file_basename.data := by simpa using h2
      cases hfr : firstRegex iter file_basename <;>
        simp [guessByName, ctFalsy, h1, h2', hfr]
    · cases hfr : firstRegex iter file_basename <;>
        simp [guessByName, ctFalsy, h1, h2, hfr]

/-- Witness for the C7 theorem: a path whose contents start with `<?xml`
resolves to "XML"; an on-disk-absent path resolves by name; a registered
exact basename wins; a registered extension wins on a basename the filename
map misses, even with a matching regex registered; and a dotless basename
missed by the filename map falls through to the regex step. -/
theorem C7_witness :
    guess_content_type exDB exDB.regexp_map [(("f.x"), ("<?xml version"))] ("f.x") =
      some ("XML")
    ∧ guess_content_type exDB exDB.regexp_map [] ("ab") =
        guessByName exDB exDB.regexp_map (basename ("ab"))
    ∧ guessByName ⟨[(("Makefile"), ("make"))], [], []⟩ [] ("Makefile") = some ("make")
    ∧ guessByName ⟨[], [((".py"), ("python"))], [(exM1, ("T1"))]⟩ [(exM1, ("T1"))]
        ("a.py") = some ("python")
    ∧ guessByName exDB exDB.regexp_map ("ab") =
        firstRegex exDB.regexp_map ("ab") :=
  ⟨C7_thm.1 exDB exDB.regexp_map [(("f.x"), ("<?xml version"))] ("f.x")
      ("<?xml version") rfl rfl,
   C7_thm.2.1 exDB exDB.regexp_map [] ("ab") rfl,
   C7_thm.2.2.1 ⟨[(("Makefile"), ("make"))], [], []⟩ [] ("Makefile") ("make") rfl
     (by decide),
   C7_thm.2.2.2.1 ⟨[], [((".py"), ("python"))], [(exM1, ("T1"))]⟩ [(exM1, ("T1"))]
     ("a.py") ("python") rfl rfl rfl (by decide),
   C7_thm.2.2.2.2 exDB exDB.regexp_map ("ab") rfl (Or.inl rfl)⟩

/-- Claim C8 (confirmed): a file whose canonical absolute path is already in
the set of preprocessed paths is rejected on entry with the
recursive-include error, before any of its lines is processed — so a direct
or transitive self-inclusion aborts the run instead of recursing without
bound, as the concrete self-including run shows. -/
theorem C8_thm :
    (∀ (files : Files) (options : Options) (fuel : Nat) (fname : String) (st : PState),
        absolutePath fname ∈ st.preprocessed →
        preprocessFile files options (fuel + 1) fname st =
          .error (.preprocessorError
            (("detected recursive #include of '") ++ fname ++ ("'")) none none))
    ∧ runError (preprocess 3 [(("a"), [.stmt (.sincludeFile ("a"))])] defOptions ("a") []) =
        some (.preprocessorError ("detected recursive #include of 'a'") none none) := by
  constructor
  · intro files options fuel fname st h
    simp only [preprocessFile]
    rw [if_pos h]
  · rfl

/-- Witness for the C8 theorem: entering a file whose absolute path is
already recorded aborts immediately. -/
theorem C8_witness :
    preprocessFile [] defOptions 1 ("a") ⟨[], [("a")], ("")⟩ =
      .error (.preprocessorError ("detected recursive #include of 'a'") none none) :=
  C8_thm.1 [] defOptions 0 ("a") ⟨[], [("a")], ("")⟩ (by decide)

/-- Helper for C9: a single statement never removes an entry from the
preprocessed-paths list, provided the recursive engine invocation it may
make never does. -/
theorem stepStmt_mono (files : Files)
    (recur : String → PState → Except PError PState)
    (hrec : ∀ f s s', recur f s = .ok s' → ∀ x ∈ s.preprocessed, x ∈ s'.preprocessed)
    (options : Options) (fn : String) (s : Stmt) (states : Frames) (st : PState)
    (r : Frames × PState) (h : stepStmt files recur options fn s states st = .ok r) :
    ∀ x ∈ st.preprocessed, x ∈ r.2.preprocessed := by
  intro x hx
  cases s <;> simp only [stepStmt, ifPush] at h <;> repeat' split at h
  all_goals
    first
      | exact Except.noConfusion h
      | (injection h with h1; subst h1; simpa using hx)
      | (injection h with h1; subst h1; exact hrec _ _ _ (by assumption) x hx)

/-- Helper for C9: the per-line loop never removes an entry from the
preprocessed-paths list, provided the recursive engine invocation never
does. -/
theorem processLines_mono (files : Files)
    (recur : String → PState → Except PError PState)
    (hrec : ∀ f s s', recur f s = .ok s' → ∀ x ∈ s.preprocessed, x ∈ s'.preprocessed)
    (options : Options) (fn : String) :
    ∀ (lines : List PLine) (n : Nat) (states : Frames) (st : PState)
      (r : Frames × PState),
      processLines files recur options fn lines n states st = .ok r →
      ∀ x ∈ st.preprocessed, x ∈ r.2.preprocessed := by
  intro lines
  induction lines with
  | nil =>
      intro n states st r h x hx
      simp only [processLines] at h
      injection h with h1
      subst h1
      exact hx
  | cons l rest ih =>
      intro n states st r h x hx
      cases l with
      | stmt s =>
          simp only [processLines] at h
          split at h
          · exact Except.noConfusion h
          · refine ih _ _ _ _ h x ?_
            have h2 := stepStmt_mono files recur hrec options fn _ _ _ _
              (by assumption) x (by simpa using hx)
            split <;> simpa using h2
      | text l =>
          simp only [processLines] at h
          repeat' split at h
          all_goals
            first
              | exact Except.noConfusion h
              | exact ih _ _ _ _ h x (by simpa using hx)

/-- Helper for C9: a whole-file invocation never removes an entry from the
preprocessed-paths list: the list only ever grows for the remainder of the
run. -/
theorem preprocessFile_mono (files : Files) (options : Options) :
    ∀ (fuel : Nat) (fname : String) (st st' : PState),
      preprocessFile files options fuel fname st = .ok st' →
      ∀ x ∈ st.preprocessed, x ∈ st'.preprocessed := by
  intro fuel
  induction fuel with
  | zero => intro fname st st' h; exact Except.noConfusion h
  | succ n ih =>
      intro fname st st' h x hx
      simp only [preprocessFile] at h
      split at h
      · exact Except.noConfusion h
      · split at h
        · exact Except.noConfusion h
        · split at h
          · exact Except.noConfusion h
          · split at h
            · exact Except.noConfusion h
            · split at h
              · exact Except.noConfusion h
              · injection h with h1
                subst h1
                refine processLines_mono files _ ih options fname _ _ _ _ _
                  (by assumption) x ?_
                simpa using Or.inl hx

/-- Claim C9 (confirmed): an entry added to the preprocessed-paths list is
never removed for the remainder of the run, so including the same canonical
absolute path a second time — even sequentially, a diamond rather than a
loop — hits the recursive-include rejection: in the concrete diamond run
the first inclusion of "b" succeeds (a lone inclusion emits fine, third
conjunct) and the second raises the recursive-include error. -/
theorem C9_thm :
    (∀ (files : Files) (options : Options) (fuel : Nat) (fname : String)
        (st st' : PState),
        preprocessFile files options fuel fname st = .ok st' →
        ∀ x ∈ st.preprocessed, x ∈ st'.preprocessed)
    ∧ runError (preprocess 4
        [(("a"), [.stmt (.sincludeFile ("b")), .stmt (.sincludeFile ("b"))]),
         (("b"), [.text ("x\n")])] defOptions ("a") []) =
        some (.preprocessorError ("detected recursive #include of 'b'") none none)
    ∧ runOut (preprocess 4
        [(("a"), [.stmt (.sincludeFile ("b")), .text ("y\n")]),
         (("b"), [.text ("x\n")])] defOptions ("a") []) = some ("x\ny\n") :=
  ⟨fun files options => preprocessFile_mono files options, rfl, rfl⟩

/-- Witness for the C9 theorem: a concrete successful file invocation
carries the pre-existing entry "z" through to the resulting state. -/
theorem C9_witness :
    ("z") ∈ (PState.mk [(("__FILE__"), Value.vstr ("b")), (("__LINE__"), Value.vint 1)]
      [("z"), ("b")] ("x\n")).preprocessed :=
  C9_thm.1 [(("b"), [.text ("x\n")])] defOptions 1 ("b") ⟨[], [("z")], ("")⟩ _
    rfl ("z") (by decide)

/-- Claim C10 (confirmed): an `#include VAR` taking effect in an EMIT
context with VAR absent from the variable table aborts with the bare
KeyError of `defines[var]` — an error that is not a PreprocessorError and
carries no filename or line-number context — as both the statement-level
rule and the concrete run show. -/
theorem C10_thm :
    (∀ (files : Files) (recur : String → PState → Except PError PState)
        (options : Options) (fn var : String) (states : Frames) (st : PState),
        topIsSkip states = false →
        dlookup st.defines var = none →
        stepStmt files recur options fn (.sincludeVar var) states st =
          .error (.keyError var))
    ∧ (∀ v, isPreprocessorError (.keyError v) = false
        ∧ errFilename (.keyError v) = none ∧ errLine (.keyError v) = none)
    ∧ runError (preprocess 2 [(("a"), [.stmt (.sincludeVar ("V"))])] defOptions ("a") []) =
        some (.keyError ("V")) := by
  refine ⟨?_, fun v => ⟨rfl, rfl, rfl⟩, rfl⟩
  intro files recur options fn var states st h1 h2
  simp [stepStmt, h1, h2]

/-- Witness for the C10 theorem at a concrete EMIT-mode state with an empty
variable table. -/
theorem C10_witness :
    stepStmt [] noRecur defOptions ("a") (.sincludeVar ("V"))
      [⟨Mode.emit, false, false⟩] ⟨[], [], ("")⟩ = .error (.keyError ("V")) :=
  C10_thm.1 [] noRecur defOptions ("a") ("V") [⟨Mode.emit, false, false⟩]
    ⟨[], [], ("")⟩ rfl rfl

end Pepe




